import Mathlib

/-!
Shallow embedding of the DRM mode-configuration core from
src/linux-core/drm_crtc.c: identifier registry, display modes, outputs,
CRTCs, framebuffers, the property system, the mode prober, the
output-to-CRTC assignment heuristic and the set-config / set-mode
transaction protocol.

Pointers become optional identifiers, the kernel linked lists become Lean
lists, and driver callbacks (the capability interface) become explicit
function parameters.  Memory-allocation failure paths (kzalloc returning
NULL, -ENOMEM) are not modelled: allocation always succeeds in the model.
Helpers that live in drm_modes.c or drm_crtc.h (which are not part of the
given sources) are modelled from the spec and marked as such in their
doc comments.
-/

namespace DrmCrtc

/-- Modelled from the spec: the property flag bits are defined in
drm_crtc.h, which is not among the given sources.  Only their distinctness
matters to the code in drm_crtc.c, which tests them with bitwise and. -/
def DRM_MODE_PROP_PENDING : Nat := 1

def DRM_MODE_PROP_RANGE : Nat := 2

def DRM_MODE_PROP_IMMUTABLE : Nat := 4

def DRM_MODE_PROP_ENUM : Nat := 8

def DRM_MODE_PROP_BLOB : Nat := 16

/-- Mode type bitmask: the preferred bit tested by drm_pick_crtcs. -/
def DRM_MODE_TYPE_BUILTIN : Nat := 1

def DRM_MODE_TYPE_PREFERRED : Nat := 8

/-- Modelled from the spec: drm_crtc.h (not in the given sources) defines
DRM_MODE_TYPE_DEFAULT, the type given to the built-in 640x480 fallback
mode.  The spec describes that fallback as a built-in mode that the prober
"marks preferred", so DEFAULT carries the BUILTIN and PREFERRED bits. -/
def DRM_MODE_TYPE_DEFAULT : Nat := DRM_MODE_TYPE_BUILTIN ||| DRM_MODE_TYPE_PREFERRED

/-- Mode flag bits (sync polarity); values immaterial to the claims. -/
def V_NHSYNC : Nat := 1

def V_NVSYNC : Nat := 2

/-- Mode validation status.  The several rejection reasons of the C enum
are collapsed into MODE_BAD; the code only ever tests for MODE_OK. -/
inductive ModeStatus where
  | MODE_OK
  | MODE_UNVERIFIED
  | MODE_BAD
deriving DecidableEq

/-- Connection status of an output (enum drm_output_status). -/
inductive OutputStatus where
  | output_status_connected
  | output_status_disconnected
  | output_status_unknown
deriving DecidableEq

open OutputStatus ModeStatus

/-- struct drm_display_mode: a complete display timing descriptor. -/
structure DisplayMode where
  mode_id : Nat := 0
  name : String := ""
  clock : Nat := 0
  hdisplay : Nat := 0
  hsync_start : Nat := 0
  hsync_end : Nat := 0
  htotal : Nat := 0
  hskew : Nat := 0
  vdisplay : Nat := 0
  vsync_start : Nat := 0
  vsync_end : Nat := 0
  vtotal : Nat := 0
  vscan : Nat := 0
  vrefresh : Nat := 0
  flags : Nat := 0
  type : Nat := 0
  status : ModeStatus := ModeStatus.MODE_OK
deriving DecidableEq

/-- Modelled from the spec: drm_mode_equal lives in drm_modes.c, which is
not among the given sources.  The spec describes it as full timing-field
equality (not just name equality): clock, horizontal and vertical timing
fields, skew, scan and flags. -/
def drm_mode_equal (a b : DisplayMode) : Bool :=
  a.clock == b.clock && a.hdisplay == b.hdisplay &&
  a.hsync_start == b.hsync_start && a.hsync_end == b.hsync_end &&
  a.htotal == b.htotal && a.hskew == b.hskew &&
  a.vdisplay == b.vdisplay && a.vsync_start == b.vsync_start &&
  a.vsync_end == b.vsync_end && a.vtotal == b.vtotal &&
  a.vscan == b.vscan && a.flags == b.flags

/-- The static std_mode[0] table entry of drm_crtc.c: detailed mode info
for a standard 640x480@60Hz monitor. -/
def std_mode0 : DisplayMode :=
  { name := "640x480", type := DRM_MODE_TYPE_DEFAULT, clock := 25200,
    hdisplay := 640, hsync_start := 656, hsync_end := 752, htotal := 800,
    hskew := 0, vdisplay := 480, vsync_start := 490, vsync_end := 492,
    vtotal := 525, vscan := 0, flags := V_NHSYNC ||| V_NVSYNC }

/-- Modelled from the spec: drm_mode_duplicate (drm_modes.c, not in the
given sources) copies every field of a mode into a freshly created mode
with a new registry identifier.  The fresh identifier is abstracted as 0
here; no claim depends on mode identifiers. -/
def drm_mode_duplicate (m : DisplayMode) : DisplayMode :=
  { m with mode_id := 0 }

/-- Modelled from the spec: drm_mode_vrefresh (drm_modes.c, not in the
given sources) derives the refresh rate from the timing fields: the pixel
clock (in kHz) over the total raster size. -/
def drm_mode_vrefresh (m : DisplayMode) : Nat :=
  if m.htotal * m.vtotal = 0 then 0 else m.clock * 1000 / (m.htotal * m.vtotal)

/-- Modelled from the spec: comparator for drm_mode_sort (drm_modes.c, not
in the given sources): width, then height, then refresh descending, then
the preferred flag first. -/
def modeBefore (a b : DisplayMode) : Bool :=
  if a.hdisplay ≠ b.hdisplay then a.hdisplay > b.hdisplay
  else if a.vdisplay ≠ b.vdisplay then a.vdisplay > b.vdisplay
  else if a.vrefresh ≠ b.vrefresh then a.vrefresh > b.vrefresh
  else (a.type &&& DRM_MODE_TYPE_PREFERRED) ≥ (b.type &&& DRM_MODE_TYPE_PREFERRED)

def modeInsert (m : DisplayMode) : List DisplayMode → List DisplayMode
  | [] => [m]
  | x :: xs => if modeBefore x m then x :: modeInsert m xs else m :: x :: xs

/-- Modelled from the spec: drm_mode_sort (drm_modes.c, not in the given
sources) sorts the usable list by the modeBefore order, ties broken by
insertion order. -/
def drm_mode_sort (modes : List DisplayMode) : List DisplayMode :=
  modes.foldl (fun acc m => modeInsert m acc) []

/-- Modelled from the spec: drm_mode_validate_size (drm_modes.c, not in
the given sources) marks modes exceeding the given bounds (when the bound
is positive) as rejected. -/
def drm_mode_validate_size (modes : List DisplayMode) (maxX maxY maxPitch : Nat) :
    List DisplayMode :=
  modes.map fun m =>
    if 0 < maxPitch ∧ maxPitch < m.hdisplay then { m with status := MODE_BAD }
    else if 0 < maxX ∧ maxX < m.hdisplay then { m with status := MODE_BAD }
    else if 0 < maxY ∧ maxY < m.vdisplay then { m with status := MODE_BAD }
    else m

/-- A named enum entry of a property (struct drm_property_enum).  Name
truncation to DRM_PROP_NAME_LEN is not modelled; names are abstract. -/
structure PropEnumEntry where
  value : Nat
  name : String
deriving DecidableEq

/-- struct drm_property: flags, permitted-value array and the side list of
enum entries (blob payloads share the same list in C; blobs are not
needed by the claims). -/
structure DrmProperty where
  id : Nat
  flags : Nat
  name : String := ""
  values : List Nat := []
  enum_blob_list : List PropEnumEntry := []
deriving DecidableEq

/-- The in-place name update performed by drm_property_add_enum when the
value is already registered: the first entry with that value gets the new
name, everything else is untouched. -/
def updateFirstEnum : List PropEnumEntry → Nat → String → List PropEnumEntry
  | [], _, _ => []
  | e :: rest, v, n =>
    if e.value = v then { e with name := n } :: rest
    else e :: updateFirstEnum rest v n

/-- drm_property_add_enum: reject non-enum properties; if the value is
already present update that entry's name in place; otherwise append a new
entry and record the value at values[index].  (-22 is -EINVAL; kzalloc
failure, -ENOMEM, is not modelled.) -/
def drm_property_add_enum (p : DrmProperty) (index : Nat) (value : Nat)
    (name : String) : Int × DrmProperty :=
  if p.flags &&& DRM_MODE_PROP_ENUM = 0 then (-22, p)
  else if ∃ e ∈ p.enum_blob_list, e.value = value then
    (0, { p with enum_blob_list := updateFirstEnum p.enum_blob_list value name })
  else
    (0, { p with values := p.values.set index value,
                 enum_blob_list := p.enum_blob_list ++ [⟨value, name⟩] })

/-- struct drm_output.  The bound CRTC is a weak reference, modelled as an
optional CRTC identifier; the three mode lists and the attached property
identifier array mirror the C fields. -/
structure Output where
  id : Nat
  output_type : Nat := 0
  status : OutputStatus := OutputStatus.output_status_unknown
  modes : List DisplayMode := []
  probed_modes : List DisplayMode := []
  user_modes : List DisplayMode := []
  possible_crtcs : Nat := 0
  possible_clones : Nat := 0
  crtc : Option Nat := none
  initial_x : Int := 0
  initial_y : Int := 0
  property_ids : List Nat := []
deriving DecidableEq

/-- struct drm_crtc.  The current mode is stored by value; the bound
framebuffer is a weak reference modelled as an optional identifier. -/
structure Crtc where
  id : Nat
  enabled : Bool := false
  mode : DisplayMode := {}
  x : Int := 0
  y : Int := 0
  desired_x : Int := 0
  desired_y : Int := 0
  desired_mode : Option DisplayMode := none
  fb : Option Nat := none
deriving DecidableEq

/-- struct drm_framebuffer (the fields relevant to the claims). -/
structure Framebuffer where
  id : Nat
  width : Nat := 0
  height : Nat := 0
  pitch : Nat := 0
  depth : Nat := 0
  bits_per_pixel : Nat := 0
deriving DecidableEq

/-! ## Identifier registry (drm_idr_get / drm_idr_put)

The backing idr library (lib/idr.c) is not among the given sources.
Modelled from the spec: identifiers start at 1 (0 is reserved as unset),
allocation returns the lowest free identifier at or above 1 and never a
currently-live one, release frees the identifier, and resolution of a
released identifier reports not-found.  The registry is a list of
(identifier, object) pairs; objects are abstracted as naturals. -/

/-- idr_find: resolve an identifier to the stored object, if live. -/
def idrFind (reg : List (Nat × Nat)) (id : Nat) : Option Nat :=
  (reg.find? (fun e => e.1 == id)).map (·.2)

/-- The largest identifier present in the registry. -/
def idrMax (reg : List (Nat × Nat)) : Nat :=
  reg.foldr (fun e acc => max e.1 acc) 0

theorem mem_le_idrMax {reg : List (Nat × Nat)} {e : Nat × Nat}
    (h : e ∈ reg) : e.1 ≤ idrMax reg := by
  induction reg with
  | nil => cases h
  | cons x xs ih =>
    rcases List.mem_cons.mp h with rfl | hx
    · exact le_max_left _ _
    · exact le_trans (ih hx) (le_max_right _ _)

theorem idr_free_exists (reg : List (Nat × Nat)) :
    ∃ n, 1 ≤ n ∧ idrFind reg n = none := by
  refine ⟨idrMax reg + 1, Nat.le_add_left 1 _, ?_⟩
  unfold idrFind
  rw [List.find?_eq_none.mpr, Option.map_none']
  intro e he
  simp only [Nat.beq_eq_true_eq]
  intro hkey
  have := mem_le_idrMax he
  omega

/-- drm_idr_get: allocate the lowest free identifier at or above 1 for
the object and record it.  (Memory exhaustion, which makes the C function
return 0, is not modelled.) -/
def drm_idr_get (reg : List (Nat × Nat)) (ptr : Nat) : Nat × List (Nat × Nat) :=
  let nid := Nat.find (idr_free_exists reg)
  (nid, (nid, ptr) :: reg)

/-- drm_idr_put: free an identifier from the registry (idr_remove). -/
def drm_idr_put (reg : List (Nat × Nat)) (id : Nat) : List (Nat × Nat) :=
  reg.filter (fun e => e.1 ≠ id)

/-- A request against the identifier registry. -/
inductive IdrOp where
  | get (ptr : Nat)
  | put (id : Nat)

/-- Run a sequence of allocate/release operations from the empty registry. -/
def idrRun (ops : List IdrOp) : List (Nat × Nat) :=
  ops.foldl
    (fun reg op =>
      match op with
      | IdrOp.get ptr => (drm_idr_get reg ptr).2
      | IdrOp.put id => drm_idr_put reg id)
    []

/-! ## Property validation entry point -/

/-- drm_mode_output_property_set_ioctl, after the identifier lookups: the
output and the property are given directly (idr resolution of the two
identifiers is the transport layer's job), the attachment scan over
property_ids, the flag checks and the delegation to the output's
set_property callback follow the C control flow.  The second component
records whether the callback was invoked. -/
def drm_mode_output_property_set_ioctl (output : Output) (property : DrmProperty)
    (value : Nat) (set_property : Option (DrmProperty → Nat → Int)) : Int × Bool :=
  if property.id ∉ output.property_ids then (-22, false)
  else if property.flags &&& DRM_MODE_PROP_IMMUTABLE ≠ 0 then (-22, false)
  else if property.flags &&& DRM_MODE_PROP_RANGE ≠ 0 then
    if value < property.values.getD 0 0 then (-22, false)
    else if property.values.getD 1 0 < value then (-22, false)
    else
      match set_property with
      | some f => (f property value, true)
      | none => (-22, false)
  else
    if value ∈ property.values then
      match set_property with
      | some f => (f property value, true)
      | none => (-22, false)
    else (-22, false)

/-! ## Framebuffer destruction -/

/-- The slice of struct drm_device mode_config that framebuffer
destruction touches: the CRTC list, the framebuffer list, the identifier
registry and the framebuffer count. -/
structure FbDevState where
  crtcs : List Crtc
  fbs : List Framebuffer
  idr : List (Nat × Nat) := []
  num_fb : Nat := 0
deriving DecidableEq

/-- drm_framebuffer_destroy: first null out the fb reference of every
CRTC using the framebuffer, then release its identifier and remove it
from the device's framebuffer list. -/
def drm_framebuffer_destroy (dev : FbDevState) (fb : Framebuffer) : FbDevState :=
  let crtcs := dev.crtcs.map fun c =>
    if c.fb = some fb.id then { c with fb := none } else c
  { dev with
    crtcs := crtcs,
    idr := drm_idr_put dev.idr fb.id,
    fbs := dev.fbs.eraseP (fun f => f.id == fb.id),
    num_fb := dev.num_fb - 1 }

/-! ## The mode-apply protocol (drm_crtc_set_mode)

Driver callbacks are modelled as oracle functions; besides the updated
CRTC and the boolean result, the model returns the trace of capability
calls made during the invocation, so that "no hardware callback ran" can
be stated. -/

/-- One capability-interface call made during drm_crtc_set_mode. -/
inductive Ev where
  | outputFixup (oid : Nat) (ok : Bool)
  | crtcFixup (ok : Bool)
  | outputPrepare (oid : Nat)
  | crtcPrepare
  | crtcModeSet
  | outputModeSet (oid : Nat)
  | crtcCommit
  | outputCommit (oid : Nat)
  | modeSetBase
deriving DecidableEq

/-- A fixup call that returned rejection. -/
def isFixupReject : Ev → Bool
  | Ev.outputFixup _ false => true
  | Ev.crtcFixup false => true
  | _ => false

/-- A call that touches the hardware after the fixup phase: prepare,
mode_set (including mode_set_base) or commit, on the CRTC or an output. -/
def isApplyEv : Ev → Bool
  | Ev.outputFixup _ _ => false
  | Ev.crtcFixup _ => false
  | _ => true

/-- The driver callbacks consulted by drm_crtc_set_mode, as oracles: the
boolean results of the output and CRTC mode_fixup hooks.  prepare,
mode_set and commit return nothing, so only their invocation is traced. -/
structure FixupFuncs where
  output_mode_fixup : Nat → DisplayMode → Bool
  crtc_mode_fixup : DisplayMode → Bool

/-- drm_crtc_in_use: walk the device's output list and report whether any
output is bound to the CRTC. -/
def drm_crtc_in_use (outputs : List Output) (crtcId : Nat) : Bool :=
  outputs.any (fun o => o.crtc == some crtcId)

/-- The first fixup pass of drm_crtc_set_mode: give every output bound to
the CRTC a chance to reject the mode, stopping at the first rejection.
Returns the accumulated result and the trace of fixup calls. -/
def outputsFixup (fx : FixupFuncs) (crtcId : Nat) (mode : DisplayMode) :
    List Output → Bool × List Ev
  | [] => (true, [])
  | o :: rest =>
    if o.crtc = some crtcId then
      let r := fx.output_mode_fixup o.id mode
      if r then
        let rec' := outputsFixup fx crtcId mode rest
        (rec'.1, Ev.outputFixup o.id r :: rec'.2)
      else (false, [Ev.outputFixup o.id r])
    else outputsFixup fx crtcId mode rest

/-- Identifiers of the outputs bound to the CRTC, in device-list order. -/
def boundIds (outputs : List Output) (crtcId : Nat) : List Nat :=
  (outputs.filter (fun o => o.crtc == some crtcId)).map (·.id)

/-- The calls made after both fixup passes succeed: prepare every bound
output, prepare the CRTC, set the CRTC mode, set every bound output's
mode, commit the CRTC, commit every bound output. -/
def applyTrace (outputs : List Output) (crtcId : Nat) : List Ev :=
  ((boundIds outputs crtcId).map Ev.outputPrepare) ++
  [Ev.crtcPrepare, Ev.crtcModeSet] ++
  ((boundIds outputs crtcId).map Ev.outputModeSet) ++
  [Ev.crtcCommit] ++
  ((boundIds outputs crtcId).map Ev.outputCommit)

/-- drm_crtc_set_mode: mark the CRTC enabled iff some output is bound to
it (short-circuiting to success otherwise), update mode/x/y up front,
take the mode_set_base fast path when only the position changed, run the
output and CRTC fixups (any rejection aborts and restores mode/x/y), then
prepare, apply and commit. -/
def drm_crtc_set_mode (outputs : List Output) (crtc : Crtc) (mode : DisplayMode)
    (x y : Int) (fx : FixupFuncs) : Crtc × Bool × List Ev :=
  let crtc := { crtc with enabled := drm_crtc_in_use outputs crtc.id }
  if crtc.enabled = false then (crtc, true, [])
  else
    let saved_mode := crtc.mode
    let saved_x := crtc.x
    let saved_y := crtc.y
    let crtc := { crtc with mode := mode, x := x, y := y }
    if drm_mode_equal saved_mode crtc.mode ∧ (saved_x ≠ crtc.x ∨ saved_y ≠ crtc.y) then
      (crtc, true, [Ev.modeSetBase])
    else
      let r1 := outputsFixup fx crtc.id mode outputs
      if r1.1 = false then
        ({ crtc with mode := saved_mode, x := saved_x, y := saved_y }, false, r1.2)
      else
        let rc := fx.crtc_mode_fixup mode
        if rc = false then
          ({ crtc with mode := saved_mode, x := saved_x, y := saved_y }, false,
           r1.2 ++ [Ev.crtcFixup rc])
        else
          (crtc, true, r1.2 ++ [Ev.crtcFixup rc] ++ applyTrace outputs crtc.id)

/-! ## The configuration transaction (drm_crtc_set_config) -/

/-- struct drm_mode_set: the caller-supplied configuration request.  The
CRTC itself is passed separately (the C null check on set->crtc is
subsumed by passing it by value); outputs are referenced by identifier. -/
structure ModeSet where
  x : Int := 0
  y : Int := 0
  mode : Option DisplayMode := none
  outputIds : List Nat := []
  fb : Option Nat := none

/-- The per-output binding update of drm_crtc_set_config: an output in
the requested set is bound to the CRTC, an output outside the set that
was bound to this CRTC is unbound, everything else keeps its binding.
Returns the updated output and whether the binding changed. -/
def setConfigOutputStep (crtcId : Nat) (outIds : List Nat) (o : Output) :
    Output × Bool :=
  let nc := if o.crtc = some crtcId then none else o.crtc
  let nc := if o.id ∈ outIds then some crtcId else nc
  ({ o with crtc := nc }, nc ≠ o.crtc)

/-- drm_crtc_set_config: snapshot the previous bindings and enabled flag,
compute the changed/flip_or_move flags, apply the new bindings, and either
run the full mode-apply protocol (restoring the snapshot and failing with
-EINVAL when it rejects) or just rebase the framebuffer.  Besides the
updated outputs and CRTC it returns the result code and the trace of
capability calls.  (save_crtcs allocation failure, -ENOMEM, is not
modelled; drm_disable_unused_functions only issues dpms calls and does
not change the tracked entity state.) -/
def drm_crtc_set_config (outputs : List Output) (crtc : Crtc) (s : ModeSet)
    (fx : FixupFuncs) (has_mode_set_base : Bool) :
    List Output × Crtc × Int × List Ev :=
  let save_enabled := crtc.enabled
  let save_crtcs := outputs.map (·.crtc)
  let flip_or_move : Bool :=
    decide (crtc.fb ≠ s.fb) || decide (s.x ≠ crtc.x) || decide (s.y ≠ crtc.y)
  let changed : Bool :=
    match s.mode with
    | some m => ! drm_mode_equal m crtc.mode
    | none => false
  let changed := changed ||
    outputs.any (fun o => (setConfigOutputStep crtc.id s.outputIds o).2)
  let outputs := outputs.map (fun o => (setConfigOutputStep crtc.id s.outputIds o).1)
  let changed := changed || (flip_or_move && ! has_mode_set_base)
  if changed then
    let crtc := { crtc with fb := s.fb, enabled := s.mode.isSome }
    match s.mode with
    | some m =>
      let r := drm_crtc_set_mode outputs crtc m s.x s.y fx
      if r.2.1 = false then
        (List.zipWith (fun o c => { o with crtc := c }) outputs save_crtcs,
         { r.1 with enabled := save_enabled }, -22, r.2.2)
      else
        (outputs,
         { r.1 with desired_x := s.x, desired_y := s.y, desired_mode := some m },
         0, r.2.2)
    | none => (outputs, crtc, 0, [])
  else if flip_or_move then
    let crtc := if crtc.fb ≠ s.fb then { crtc with fb := s.fb } else crtc
    (outputs, crtc, 0, [Ev.modeSetBase])
  else (outputs, crtc, 0, [])

/-! ## The mode prober (drm_crtc_probe_single_output_modes) -/

/-- The capability interface consulted by the prober: connection
detection, mode enumeration (the list the driver appends to the probed
list; the count it returns is that list's length) and per-mode
validation. -/
structure ProbeFuncs where
  detect : Output → OutputStatus
  get_modes : Output → List DisplayMode
  mode_valid : Output → DisplayMode → ModeStatus

/-- Replace the status of the first mode equal to the probed one; the
second component reports whether a match was found. -/
def mergeProbedMode : List DisplayMode → DisplayMode → List DisplayMode × Bool
  | [], _ => ([], false)
  | m :: rest, p =>
    if drm_mode_equal m p then ({ m with status := p.status } :: rest, true)
    else
      let r := mergeProbedMode rest p
      (m :: r.1, r.2)

/-- Modelled from the spec: drm_mode_output_list_update (drm_modes.c, not
in the given sources) merges the probed list into the usable list keyed
by full timing-field equality — a probed mode equal to an existing one
refreshes that mode's status, a new one is appended — leaving the probed
list empty. -/
def drm_mode_output_list_update (o : Output) : Output :=
  let step := fun (modes : List DisplayMode) (p : DisplayMode) =>
    let r := mergeProbedMode modes p
    if r.2 then r.1 else modes ++ [p]
  { o with modes := o.probed_modes.foldl step o.modes, probed_modes := [] }

/-- The opening of the probe: mark every usable mode unverified, then
record the detected connection status. -/
def probeDetectPhase (o : Output) (fx : ProbeFuncs) : Output :=
  let o := { o with modes := o.modes.map (fun (m : DisplayMode) => { m with status := MODE_UNVERIFIED }) }
  { o with status := fx.detect o }

/-- The connected part of the probe up to and including pruning: ask the
driver for modes (appended to the probed list), merge them into the
usable list when any were returned, apply size filtering when both bounds
are positive, driver-validate every still-OK mode, and prune everything
not marked OK. -/
def probeUpToPrune (o : Output) (maxX maxY : Nat) (fx : ProbeFuncs) : Output :=
  let newModes := fx.get_modes o
  let o := { o with probed_modes := newModes ++ o.probed_modes }
  let o := if newModes.length ≠ 0 then drm_mode_output_list_update o else o
  let o := if maxX ≠ 0 ∧ maxY ≠ 0 then
      { o with modes := drm_mode_validate_size o.modes maxX maxY 0 }
    else o
  let o := { o with modes := o.modes.map (fun (m : DisplayMode) =>
      if m.status = MODE_OK then { m with status := fx.mode_valid o m } else m) }
  { o with modes := o.modes.filter (fun m => m.status == MODE_OK) }

/-- The fallback of the probe when no mode survived pruning: duplicate
the built-in 640x480@60 mode, add it to the probed list
(drm_mode_probed_add) and concatenate the probed list onto the usable
list (drm_mode_list_concat). -/
def probeFallback (o : Output) : Output :=
  let stdmode := drm_mode_duplicate std_mode0
  let o := { o with probed_modes := stdmode :: o.probed_modes }
  { o with modes := o.modes ++ o.probed_modes, probed_modes := [] }

/-- drm_crtc_probe_single_output_modes: unverify, detect (returning at
once when disconnected), enumerate/merge/filter/validate/prune, fall back
to the built-in 640x480@60 mode when nothing survived, then sort the
usable list and derive every entry's refresh rate.
(drm_mode_set_crtcinfo only fills the crtc_* helper timing fields, which
are not part of the model.) -/
def drm_crtc_probe_single_output_modes (o : Output) (maxX maxY : Nat)
    (fx : ProbeFuncs) : Output :=
  let o := probeDetectPhase o fx
  if o.status = output_status_disconnected then o
  else
    let o := probeUpToPrune o maxX maxY fx
    let o := if o.modes.isEmpty then probeFallback o else o
    { o with modes := (drm_mode_sort o.modes).map (fun (m : DisplayMode) => { m with vrefresh := drm_mode_vrefresh m }) }

/-! ## The assignment engine (drm_pick_crtcs) -/

/-- Default mode value standing in for the C list-head sentinel; only
reachable when the list is empty, which the callers rule out. -/
def defaultMode : DisplayMode := {}

/-- The desired-mode choice of drm_pick_crtcs, made before the CRTC scan:
the first usable mode carrying the preferred type bit, else the first
usable mode. -/
def chooseDesMode (modes : List DisplayMode) : DisplayMode :=
  match modes.find? (fun m => m.type &&& DRM_MODE_TYPE_PREFERRED != 0) with
  | some m => m
  | none => modes.headD defaultMode

/-- The first inner scan of drm_pick_crtcs: has some other output (by
identifier) already been bound to this CRTC during this run or before? -/
def crtcAssignedElsewhere (view : List Output) (oid : Nat) (crtcId : Nat) : Bool :=
  view.any (fun oe => oe.id != oid && oe.crtc == some crtcId)

/-- The clone scan of drm_pick_crtcs restricted to one other output: the
first of this output's usable modes that some usable mode of the other
output equals, provided the two outputs share a possible-clone bit and
the other output is bound to the CRTC under consideration. -/
def cloneSearchModes (o oe : Output) (crtcId : Nat) : Option DisplayMode :=
  o.modes.findSome? fun m =>
    oe.modes.findSome? fun me =>
      if drm_mode_equal m me && (o.possible_clones &&& oe.possible_clones != 0) &&
         (oe.crtc == some crtcId) then some m
      else none

/-- The full clone scan of drm_pick_crtcs over the device's outputs,
skipping the output itself (by identifier). -/
def cloneSearch (view : List Output) (o : Output) (crtcId : Nat) : Option DisplayMode :=
  view.findSome? fun oe =>
    if oe.id == o.id then none else cloneSearchModes o oe crtcId

/-- The CRTC scan of drm_pick_crtcs for one output: walk the CRTC list
with its index, skip CRTCs outside the output's eligibility bitmask and
CRTCs already bound to another output, run the clone scan (which may
override the desired mode), and stop at the first CRTC that qualifies.
Returns the bound CRTC's identifier and the final desired mode. -/
def scanCrtcs (view : List Output) (o : Output) (des : DisplayMode) :
    List (Nat × Crtc) → Option (Nat × DisplayMode)
  | [] => none
  | (c, k) :: rest =>
    if o.possible_crtcs &&& (1 <<< c) = 0 then scanCrtcs view o des rest
    else if crtcAssignedElsewhere view o.id k.id then scanCrtcs view o des rest
    else
      match cloneSearch view o k.id with
      | some m => some (k.id, m)
      | none => some (k.id, des)

/-- The body of drm_pick_crtcs for one output, after its binding has been
reset: skip disconnected outputs and outputs with no usable mode, choose
the desired mode, scan the CRTCs, and on a match bind the output, zero
its initial position and record the desired mode on the CRTC. -/
def pickProcessOutput (view : List Output) (crtcs : List Crtc) (o : Output) :
    Output × List Crtc :=
  if o.status ≠ output_status_connected then (o, crtcs)
  else if o.modes.isEmpty then (o, crtcs)
  else
    let des := chooseDesMode o.modes
    match scanCrtcs view o des crtcs.enum with
    | none => (o, crtcs)
    | some (cid, desF) =>
      ({ o with crtc := some cid, initial_x := 0, initial_y := 0 },
       crtcs.map (fun k => if k.id = cid then { k with desired_mode := some desF } else k))

/-- The outer loop of drm_pick_crtcs: outputs are processed in
device-list order, each one's binding reset to null at the start of its
turn; the scans look at the current bindings of every output (already
processed ones carry their new binding, later ones still their old). -/
def pickLoop (processed : List Output) :
    List Output → List Crtc → List Output × List Crtc
  | [], crtcs => (processed, crtcs)
  | o :: rest, crtcs =>
    let o0 := { o with crtc := none }
    let view := processed ++ o0 :: rest
    let r := pickProcessOutput view crtcs o0
    pickLoop (processed ++ [r.1]) rest r.2

/-- drm_pick_crtcs: pick CRTCs for output devices. -/
def drm_pick_crtcs (outputs : List Output) (crtcs : List Crtc) :
    List Output × List Crtc :=
  pickLoop [] outputs crtcs

/-! ## Theorems -/

/-- C7: for every sequence of allocate/release operations on one device's
registry, a successful allocation returns an identifier that is at least
1 and not live at that moment, and resolving an identifier right after
releasing it reports not-found. -/
theorem idr_alloc_fresh_and_release_not_found (ops : List IdrOp) (ptr id : Nat) :
    (1 ≤ (drm_idr_get (idrRun ops) ptr).1 ∧
      idrFind (idrRun ops) (drm_idr_get (idrRun ops) ptr).1 = none) ∧
    idrFind (drm_idr_put (idrRun ops) id) id = none := by
  constructor
  · simpa [drm_idr_get] using Nat.find_spec (idr_free_exists (idrRun ops))
  · unfold idrFind drm_idr_put
    rw [List.find?_eq_none.mpr, Option.map_none']
    intro e he hbeq
    have h2 := of_decide_eq_true (List.mem_filter.mp he).2
    exact h2 (eq_of_beq hbeq)

/-- The in-place update of the first enum entry carrying a value is a
List.set at the index of that first entry. -/
theorem updateFirstEnum_eq_set (l : List PropEnumEntry) (v : Nat) (n : String)
    (h : ∃ e ∈ l, e.value = v) :
    ∃ i, ∃ hi : i < l.length, (l.get ⟨i, hi⟩).value = v ∧
      updateFirstEnum l v n = l.set i ⟨v, n⟩ := by
  induction l with
  | nil => simp at h
  | cons e rest ih =>
    by_cases he : e.value = v
    · refine ⟨0, Nat.succ_pos _, he, ?_⟩
      simp [updateFirstEnum, he]
    · obtain ⟨f, hf, hfv⟩ := h
      rcases List.mem_cons.mp hf with rfl | hf2
      · exact absurd hfv he
      · obtain ⟨i, hi, hv, heq⟩ := ih ⟨f, hf2, hfv⟩
        refine ⟨i + 1, Nat.succ_lt_succ hi, ?_, ?_⟩
        · simpa using hv
        · simp [updateFirstEnum, he, heq]

/-- C8: re-registering an existing enum value with a new name succeeds,
updates that entry's name in place, and changes neither the number of
enum entries nor the values array. -/
theorem property_add_enum_idempotent (p : DrmProperty) (index value : Nat)
    (name : String)
    (hflag : p.flags &&& DRM_MODE_PROP_ENUM ≠ 0)
    (hmem : ∃ e ∈ p.enum_blob_list, e.value = value) :
    (drm_property_add_enum p index value name).1 = 0 ∧
    (drm_property_add_enum p index value name).2.values = p.values ∧
    (drm_property_add_enum p index value name).2.enum_blob_list.length =
      p.enum_blob_list.length ∧
    ∃ i, ∃ hi : i < p.enum_blob_list.length,
      (p.enum_blob_list.get ⟨i, hi⟩).value = value ∧
      (drm_property_add_enum p index value name).2.enum_blob_list =
        p.enum_blob_list.set i ⟨value, name⟩ := by
  obtain ⟨i, hi, hv, heq⟩ := updateFirstEnum_eq_set p.enum_blob_list value name hmem
  unfold drm_property_add_enum
  rw [if_neg hflag, if_pos hmem]
  exact ⟨rfl, rfl, by simp [heq], i, hi, hv, heq⟩

theorem property_add_enum_idempotent_witness :
    (drm_property_add_enum ⟨1, DRM_MODE_PROP_ENUM, "p", [7], [⟨3, "a"⟩]⟩ 0 3 "b").1 = 0 ∧
    (drm_property_add_enum ⟨1, DRM_MODE_PROP_ENUM, "p", [7], [⟨3, "a"⟩]⟩ 0 3 "b").2.values = [7] ∧
    (drm_property_add_enum ⟨1, DRM_MODE_PROP_ENUM, "p", [7], [⟨3, "a"⟩]⟩ 0 3 "b").2.enum_blob_list.length = 1 := by
  have h := property_add_enum_idempotent ⟨1, DRM_MODE_PROP_ENUM, "p", [7], [⟨3, "a"⟩]⟩ 0 3 "b"
    (by decide) ⟨⟨3, "a"⟩, by simp, rfl⟩
  exact ⟨h.1, h.2.1, h.2.2.1⟩

/-- C10: calling drm_property_add_enum on a property whose flags do not
include the enum flag fails with -EINVAL and leaves the property (enum
entry list and values array included) unchanged. -/
theorem property_add_enum_non_enum_rejected (p : DrmProperty) (index value : Nat)
    (name : String) (hflag : p.flags &&& DRM_MODE_PROP_ENUM = 0) :
    drm_property_add_enum p index value name = (-22, p) := by
  unfold drm_property_add_enum
  rw [if_pos hflag]

theorem property_add_enum_non_enum_rejected_witness :
    drm_property_add_enum ⟨2, DRM_MODE_PROP_RANGE, "r", [0, 100], []⟩ 0 5 "x" =
      (-22, ⟨2, DRM_MODE_PROP_RANGE, "r", [0, 100], []⟩) :=
  property_add_enum_non_enum_rejected ⟨2, DRM_MODE_PROP_RANGE, "r", [0, 100], []⟩ 0 5 "x"
    (by decide)

/-- C2, counterexample: for an attached property carrying none of the
immutable, range or enum flags (flags = 0), none of the claim's three
rejection conditions holds, so the claim requires the output's
set_property callback to be invoked and its result returned; the code
instead rejects with -EINVAL without invoking the callback (the
discrete-membership check of the else branch applies to every non-range
property, and no value matches an empty values array). -/
theorem property_set_claim_counterexample :
    (DRM_MODE_PROP_IMMUTABLE &&& (0 : Nat) = 0) ∧
    (DRM_MODE_PROP_RANGE &&& (0 : Nat) = 0) ∧
    (DRM_MODE_PROP_ENUM &&& (0 : Nat) = 0) ∧
    (4 : Nat) ∈ ({ id := 9, property_ids := [4] } : Output).property_ids ∧
    drm_mode_output_property_set_ioctl { id := 9, property_ids := [4] }
      { id := 4, flags := 0 } 5 (some (fun _ _ => 0)) = (-22, false) :=
  ⟨rfl, rfl, rfl, List.mem_singleton.mpr rfl, rfl⟩

/-- C2, amended: the validate-and-set entry point rejects with -EINVAL
without invoking the callback when the property is immutable-flagged,
when it is range-flagged and the value lies outside
[values[0], values[1]], and when it is NOT range-flagged (enum-flagged or
not, blob or flagless alike) and the value equals none of the stored
values; otherwise it invokes the callback and returns its result
unchanged. -/
theorem property_set_validation_amended (output : Output) (prop : DrmProperty)
    (value : Nat) (f : DrmProperty → Nat → Int)
    (hatt : prop.id ∈ output.property_ids) :
    (prop.flags &&& DRM_MODE_PROP_IMMUTABLE ≠ 0 →
      drm_mode_output_property_set_ioctl output prop value (some f) = (-22, false)) ∧
    (prop.flags &&& DRM_MODE_PROP_IMMUTABLE = 0 →
      prop.flags &&& DRM_MODE_PROP_RANGE ≠ 0 →
      (value < prop.values.getD 0 0 ∨ prop.values.getD 1 0 < value) →
      drm_mode_output_property_set_ioctl output prop value (some f) = (-22, false)) ∧
    (prop.flags &&& DRM_MODE_PROP_IMMUTABLE = 0 →
      prop.flags &&& DRM_MODE_PROP_RANGE = 0 →
      value ∉ prop.values →
      drm_mode_output_property_set_ioctl output prop value (some f) = (-22, false)) ∧
    (prop.flags &&& DRM_MODE_PROP_IMMUTABLE = 0 →
      prop.flags &&& DRM_MODE_PROP_RANGE ≠ 0 →
      prop.values.getD 0 0 ≤ value → value ≤ prop.values.getD 1 0 →
      drm_mode_output_property_set_ioctl output prop value (some f) = (f prop value, true)) ∧
    (prop.flags &&& DRM_MODE_PROP_IMMUTABLE = 0 →
      prop.flags &&& DRM_MODE_PROP_RANGE = 0 →
      value ∈ prop.values →
      drm_mode_output_property_set_ioctl output prop value (some f) = (f prop value, true)) := by
  unfold drm_mode_output_property_set_ioctl
  rw [if_neg (not_not_intro hatt)]
  refine ⟨?_, ?_, ?_, ?_, ?_⟩
  · intro h1
    rw [if_pos h1]
  · intro h1 h2 h3
    rw [if_neg (not_not_intro h1), if_pos h2]
    rcases h3 with hlt | hgt
    · rw [if_pos hlt]
    · by_cases hlo : value < prop.values.getD 0 0
      · rw [if_pos hlo]
      · rw [if_neg hlo, if_pos hgt]
  · intro h1 h2 h3
    rw [if_neg (not_not_intro h1), if_neg (not_not_intro h2), if_neg h3]
  · intro h1 h2 h3 h4
    rw [if_neg (not_not_intro h1), if_pos h2, if_neg (not_lt.mpr h3),
      if_neg (not_lt.mpr h4)]
  · intro h1 h2 h3
    rw [if_neg (not_not_intro h1), if_neg (not_not_intro h2), if_pos h3]

theorem property_set_validation_amended_witness :
    drm_mode_output_property_set_ioctl { id := 9, property_ids := [4] }
      { id := 4, flags := DRM_MODE_PROP_RANGE, values := [0, 100] } 150
      (some (fun _ _ => 0)) = (-22, false) := by
  have h := property_set_validation_amended { id := 9, property_ids := [4] }
    { id := 4, flags := DRM_MODE_PROP_RANGE, values := [0, 100] } 150 (fun _ _ => 0)
    (List.mem_singleton.mpr rfl)
  exact h.2.1 (by decide) (by decide) (Or.inr (by decide))

/-- C9: destroying a framebuffer first nulls out every CRTC reference to
it, so no CRTC references the destroyed framebuffer afterwards, and if
every non-null CRTC fb reference pointed at a live framebuffer before the
destroy, the same holds after it. -/
theorem framebuffer_destroy_crtc_fb_invariant (dev : FbDevState) (fb : Framebuffer)
    (hinv : ∀ c ∈ dev.crtcs, ∀ i, c.fb = some i → ∃ f ∈ dev.fbs, f.id = i) :
    (∀ c ∈ (drm_framebuffer_destroy dev fb).crtcs, c.fb ≠ some fb.id) ∧
    (∀ c ∈ (drm_framebuffer_destroy dev fb).crtcs, ∀ i, c.fb = some i →
      ∃ f ∈ (drm_framebuffer_destroy dev fb).fbs, f.id = i) := by
  constructor
  · intro c hc
    simp only [drm_framebuffer_destroy, List.mem_map] at hc
    obtain ⟨c0, _, rfl⟩ := hc
    by_cases h : c0.fb = some fb.id
    · simp [h]
    · rw [if_neg h]
      exact h
  · intro c hc i hfb
    simp only [drm_framebuffer_destroy, List.mem_map] at hc ⊢
    obtain ⟨c0, hc0, rfl⟩ := hc
    by_cases h : c0.fb = some fb.id
    · rw [if_pos h] at hfb
      simp at hfb
    · rw [if_neg h] at hfb
      obtain ⟨f, hf, hfid⟩ := hinv c0 hc0 i hfb
      refine ⟨f, (List.mem_eraseP_of_neg ?_).mpr hf, hfid⟩
      simp only [beq_iff_eq]
      intro hcontra
      apply h
      rw [hfb, ← hfid, hcontra]

theorem framebuffer_destroy_witness :
    ((drm_framebuffer_destroy
        ⟨[{ id := 1, fb := some 5 }], [⟨5, 0, 0, 0, 0, 0⟩], [], 1⟩
        ⟨5, 0, 0, 0, 0, 0⟩).crtcs.all (fun c => c.fb != some 5)) = true := by
  have h := framebuffer_destroy_crtc_fb_invariant
    ⟨[{ id := 1, fb := some 5 }], [⟨5, 0, 0, 0, 0, 0⟩], [], 1⟩ ⟨5, 0, 0, 0, 0, 0⟩
    (by
      intro c hc i hfb
      simp only [List.mem_singleton] at hc
      subst hc
      simp only [Option.some.injEq] at hfb
      exact ⟨⟨5, 0, 0, 0, 0, 0⟩, List.mem_singleton.mpr rfl, hfb⟩)
  rw [List.all_eq_true]
  intro c hc
  simpa using h.1 c hc

/-- Every event recorded by the output fixup pass is an output fixup. -/
theorem outputsFixup_trace_events (fx : FixupFuncs) (cid : Nat) (m : DisplayMode) :
    ∀ outs : List Output, ∀ e ∈ (outputsFixup fx cid m outs).2,
      ∃ oid b, e = Ev.outputFixup oid b := by
  intro outs
  induction outs with
  | nil =>
    intro e he
    simp [outputsFixup] at he
  | cons o rest ih =>
    intro e he
    by_cases hb : o.crtc = some cid
    · simp only [outputsFixup, if_pos hb] at he
      by_cases hr : fx.output_mode_fixup o.id m = true
      · rw [if_pos hr] at he
        rcases List.mem_cons.mp he with rfl | he2
        · exact ⟨o.id, _, rfl⟩
        · exact ih e he2
      · rw [if_neg hr] at he
        rcases List.mem_cons.mp he with rfl | he2
        · exact ⟨o.id, _, rfl⟩
        · simp at he2
    · simp only [outputsFixup, if_neg hb] at he
      exact ih e he

/-- When the output fixup pass succeeds, no recorded fixup call was a
rejection. -/
theorem outputsFixup_true_no_reject (fx : FixupFuncs) (cid : Nat) (m : DisplayMode) :
    ∀ outs : List Output, (outputsFixup fx cid m outs).1 = true →
      ∀ e ∈ (outputsFixup fx cid m outs).2, isFixupReject e = false := by
  intro outs
  induction outs with
  | nil =>
    intro _ e he
    simp [outputsFixup] at he
  | cons o rest ih =>
    intro hres e he
    by_cases hb : o.crtc = some cid
    · simp only [outputsFixup, if_pos hb] at hres he
      by_cases hr : fx.output_mode_fixup o.id m = true
      · rw [if_pos hr] at hres he
        rcases List.mem_cons.mp he with rfl | he2
        · rw [hr]
          rfl
        · exact ih hres e he2
      · rw [if_neg hr] at hres
        simp at hres
    · simp only [outputsFixup, if_neg hb] at hres he
      exact ih hres e he

/-- No event of the prepare/apply/commit phase is a fixup rejection. -/
theorem applyTrace_no_reject (outs : List Output) (cid : Nat) :
    ∀ e ∈ applyTrace outs cid, isFixupReject e = false := by
  intro e he
  unfold applyTrace at he
  rcases List.mem_append.mp he with h | h
  · rcases List.mem_append.mp h with h | h
    · rcases List.mem_append.mp h with h | h
      · rcases List.mem_append.mp h with h | h
        · obtain ⟨a, _, rfl⟩ := List.mem_map.mp h
          rfl
        · simp only [List.mem_cons, List.not_mem_nil, or_false] at h
          rcases h with rfl | rfl
          · rfl
          · rfl
      · obtain ⟨a, _, rfl⟩ := List.mem_map.mp h
        rfl
    · simp only [List.mem_singleton] at h
      subst h
      rfl
  · obtain ⟨a, _, rfl⟩ := List.mem_map.mp h
    rfl

/-- Branch-by-branch characterization of drm_crtc_set_mode, used by the
claims about the mode-apply protocol and the configuration transaction. -/
theorem set_mode_spec (outputs : List Output) (crtc : Crtc) (mode : DisplayMode)
    (x y : Int) (fx : FixupFuncs) :
    drm_crtc_set_mode outputs crtc mode x y fx =
      (if drm_crtc_in_use outputs crtc.id = false then
        ({ crtc with enabled := false }, true, ([] : List Ev))
      else if drm_mode_equal crtc.mode mode = true ∧ (crtc.x ≠ x ∨ crtc.y ≠ y) then
        ({ crtc with enabled := true, mode := mode, x := x, y := y }, true,
          [Ev.modeSetBase])
      else if (outputsFixup fx crtc.id mode outputs).1 = false then
        ({ crtc with enabled := true }, false, (outputsFixup fx crtc.id mode outputs).2)
      else if fx.crtc_mode_fixup mode = false then
        ({ crtc with enabled := true }, false,
          (outputsFixup fx crtc.id mode outputs).2 ++ [Ev.crtcFixup false])
      else
        ({ crtc with enabled := true, mode := mode, x := x, y := y }, true,
          (outputsFixup fx crtc.id mode outputs).2 ++ [Ev.crtcFixup true] ++
            applyTrace outputs crtc.id)) := by
  by_cases h1 : drm_crtc_in_use outputs crtc.id = false
  · simp [drm_crtc_set_mode, h1]
  · replace h1 : drm_crtc_in_use outputs crtc.id = true := by
      revert h1
      cases drm_crtc_in_use outputs crtc.id <;> simp
    by_cases h2 : drm_mode_equal crtc.mode mode = true ∧ (crtc.x ≠ x ∨ crtc.y ≠ y)
    · simp [drm_crtc_set_mode, h1, h2]
    · by_cases h3 : (outputsFixup fx crtc.id mode outputs).1 = false
      · simp [drm_crtc_set_mode, h1, h2, h3]
      · replace h3 : (outputsFixup fx crtc.id mode outputs).1 = true := by
          revert h3
          cases (outputsFixup fx crtc.id mode outputs).1 <;> simp
        by_cases h4 : fx.crtc_mode_fixup mode = false
        · simp [drm_crtc_set_mode, h1, h2, h3, h4]
        · replace h4 : fx.crtc_mode_fixup mode = true := by
            revert h4
            cases fx.crtc_mode_fixup mode <;> simp
          simp [drm_crtc_set_mode, h1, h2, h3, h4]

/-- C5: if any affected output's mode_fixup or the CRTC's mode_fixup
returns rejection during an invocation of drm_crtc_set_mode, then no
prepare, mode_set or commit callback of the CRTC or of any output is
invoked in that invocation, and the CRTC's mode, x and y end up equal to
their values from before the invocation. -/
theorem set_mode_fixup_reject_aborts (outputs : List Output) (crtc : Crtc)
    (mode : DisplayMode) (x y : Int) (fx : FixupFuncs)
    (hrej : ∃ e ∈ (drm_crtc_set_mode outputs crtc mode x y fx).2.2,
      isFixupReject e = true) :
    (∀ e ∈ (drm_crtc_set_mode outputs crtc mode x y fx).2.2, isApplyEv e = false) ∧
    (drm_crtc_set_mode outputs crtc mode x y fx).1.mode = crtc.mode ∧
    (drm_crtc_set_mode outputs crtc mode x y fx).1.x = crtc.x ∧
    (drm_crtc_set_mode outputs crtc mode x y fx).1.y = crtc.y := by
  rw [set_mode_spec] at hrej ⊢
  obtain ⟨e0, he0, hrej0⟩ := hrej
  split_ifs at he0 ⊢ with h1 h2 h3 h4
  · simp at he0
  · simp only [List.mem_singleton] at he0
    subst he0
    simp [isFixupReject] at hrej0
  · refine ⟨?_, rfl, rfl, rfl⟩
    intro e he
    obtain ⟨oid, b, rfl⟩ := outputsFixup_trace_events fx crtc.id mode outputs e he
    rfl
  · refine ⟨?_, rfl, rfl, rfl⟩
    intro e he
    rcases List.mem_append.mp he with he2 | he2
    · obtain ⟨oid, b, rfl⟩ := outputsFixup_trace_events fx crtc.id mode outputs e he2
      rfl
    · simp only [List.mem_singleton] at he2
      subst he2
      rfl
  · exfalso
    have h3t : (outputsFixup fx crtc.id mode outputs).1 = true := by
      revert h3
      cases (outputsFixup fx crtc.id mode outputs).1 <;> simp
    rcases List.mem_append.mp he0 with he2 | he2
    · rcases List.mem_append.mp he2 with he3 | he3
      · rw [outputsFixup_true_no_reject fx crtc.id mode outputs h3t e0 he3] at hrej0
        cases hrej0
      · simp only [List.mem_singleton] at he3
        subst he3
        simp [isFixupReject] at hrej0
    · rw [applyTrace_no_reject outputs crtc.id e0 he2] at hrej0
      cases hrej0

theorem set_mode_fixup_reject_aborts_witness :
    (∀ e ∈ (drm_crtc_set_mode
        [{ id := 7, status := OutputStatus.output_status_connected, crtc := some 1 }]
        { id := 1 } { clock := 100 } 0 0 ⟨fun _ _ => false, fun _ => true⟩).2.2,
      isApplyEv e = false) ∧
    (drm_crtc_set_mode
        [{ id := 7, status := OutputStatus.output_status_connected, crtc := some 1 }]
        { id := 1 } { clock := 100 } 0 0 ⟨fun _ _ => false, fun _ => true⟩).1.mode =
      ({ id := 1 } : Crtc).mode ∧
    (drm_crtc_set_mode
        [{ id := 7, status := OutputStatus.output_status_connected, crtc := some 1 }]
        { id := 1 } { clock := 100 } 0 0 ⟨fun _ _ => false, fun _ => true⟩).1.x =
      ({ id := 1 } : Crtc).x ∧
    (drm_crtc_set_mode
        [{ id := 7, status := OutputStatus.output_status_connected, crtc := some 1 }]
        { id := 1 } { clock := 100 } 0 0 ⟨fun _ _ => false, fun _ => true⟩).1.y =
      ({ id := 1 } : Crtc).y :=
  set_mode_fixup_reject_aborts
    [{ id := 7, status := OutputStatus.output_status_connected, crtc := some 1 }]
    { id := 1 } { clock := 100 } 0 0 ⟨fun _ _ => false, fun _ => true⟩
    ⟨Ev.outputFixup 7 false, by decide, by decide⟩

/-- C6: drm_crtc_set_mode sets the CRTC's enabled flag to whether some
output's binding references the CRTC, and when no output references it
the invocation returns success immediately with an empty call trace (no
fixup, prepare, mode_set or commit callback runs). -/
theorem set_mode_unused_short_circuit (outputs : List Output) (crtc : Crtc)
    (mode : DisplayMode) (x y : Int) (fx : FixupFuncs) :
    (drm_crtc_set_mode outputs crtc mode x y fx).1.enabled =
      drm_crtc_in_use outputs crtc.id ∧
    (drm_crtc_in_use outputs crtc.id = false →
      drm_crtc_set_mode outputs crtc mode x y fx =
        ({ crtc with enabled := false }, true, [])) := by
  rw [set_mode_spec]
  by_cases h1 : drm_crtc_in_use outputs crtc.id = false
  · simp [h1]
  · replace h1 : drm_crtc_in_use outputs crtc.id = true := by
      revert h1
      cases drm_crtc_in_use outputs crtc.id <;> simp
    rw [h1]
    simp only [Bool.true_eq_false, if_false]
    constructor
    · split_ifs <;> simp
    · intro hcontra
      cases hcontra

theorem set_mode_unused_short_circuit_witness :
    drm_crtc_set_mode [] { id := 1 } { clock := 100 } 0 0
        ⟨fun _ _ => true, fun _ => true⟩ =
      ({ id := 1, enabled := false }, true, []) :=
  (set_mode_unused_short_circuit [] { id := 1 } { clock := 100 } 0 0
    ⟨fun _ _ => true, fun _ => true⟩).2 (by decide)

/-- Restoring every output's snapshotted binding after the binding
update of drm_crtc_set_config yields exactly the original output list. -/
theorem setConfig_restore_outputs (crtcId : Nat) (outIds : List Nat) :
    ∀ l : List Output,
      List.zipWith (fun o c => { o with crtc := c })
        (l.map (fun o => (setConfigOutputStep crtcId outIds o).1))
        (l.map (·.crtc)) = l := by
  intro l
  induction l with
  | nil => rfl
  | cons o rest ih =>
    simp only [List.map_cons, List.zipWith_cons_cons, ih]
    rfl

/-- A failed drm_crtc_set_mode leaves the CRTC equal to its input except
for the enabled flag, which has been set to true (the failure branches
are only reachable on an in-use CRTC). -/
theorem set_mode_failed_state (outputs : List Output) (crtc : Crtc)
    (mode : DisplayMode) (x y : Int) (fx : FixupFuncs)
    (h : (drm_crtc_set_mode outputs crtc mode x y fx).2.1 = false) :
    (drm_crtc_set_mode outputs crtc mode x y fx).1 = { crtc with enabled := true } := by
  rw [set_mode_spec] at h ⊢
  split_ifs at h ⊢ with h1 h2 h3 h4
  · rfl
  · rfl

/-- C1: when drm_crtc_set_config is invoked with a non-null mode and the
mode-apply step rejects (the transaction fails with -EINVAL), every
output — bindings included — and the target CRTC's mode, position and
enabled flag equal their values from immediately before the call.  (The
CRTC's fb reference is deliberately not part of the claim: the code does
not restore it.) -/
theorem set_config_mode_reject_restores (outputs : List Output) (crtc : Crtc)
    (s : ModeSet) (fx : FixupFuncs) (hasBase : Bool) (m : DisplayMode)
    (hm : s.mode = some m)
    (hrej : (drm_crtc_set_config outputs crtc s fx hasBase).2.2.1 = -22) :
    (drm_crtc_set_config outputs crtc s fx hasBase).1 = outputs ∧
    (drm_crtc_set_config outputs crtc s fx hasBase).2.1.mode = crtc.mode ∧
    (drm_crtc_set_config outputs crtc s fx hasBase).2.1.x = crtc.x ∧
    (drm_crtc_set_config outputs crtc s fx hasBase).2.1.y = crtc.y ∧
    (drm_crtc_set_config outputs crtc s fx hasBase).2.1.enabled = crtc.enabled := by
  unfold drm_crtc_set_config at hrej ⊢
  rw [hm] at hrej ⊢
  simp only at hrej ⊢
  split_ifs at hrej ⊢ with hch hok
  rw [setConfig_restore_outputs]
  refine ⟨rfl, ?_, ?_, ?_, ?_⟩ <;> rw [set_mode_failed_state _ _ _ _ _ _ hok]

theorem set_config_mode_reject_restores_witness :
    (drm_crtc_set_config
        [{ id := 7, status := OutputStatus.output_status_connected }] { id := 1 }
        { mode := some { clock := 100 }, outputIds := [7] }
        ⟨fun _ _ => false, fun _ => true⟩ true).1 =
      [{ id := 7, status := OutputStatus.output_status_connected }] ∧
    (drm_crtc_set_config
        [{ id := 7, status := OutputStatus.output_status_connected }] { id := 1 }
        { mode := some { clock := 100 }, outputIds := [7] }
        ⟨fun _ _ => false, fun _ => true⟩ true).2.1.mode = ({ id := 1 } : Crtc).mode ∧
    (drm_crtc_set_config
        [{ id := 7, status := OutputStatus.output_status_connected }] { id := 1 }
        { mode := some { clock := 100 }, outputIds := [7] }
        ⟨fun _ _ => false, fun _ => true⟩ true).2.1.x = ({ id := 1 } : Crtc).x ∧
    (drm_crtc_set_config
        [{ id := 7, status := OutputStatus.output_status_connected }] { id := 1 }
        { mode := some { clock := 100 }, outputIds := [7] }
        ⟨fun _ _ => false, fun _ => true⟩ true).2.1.y = ({ id := 1 } : Crtc).y ∧
    (drm_crtc_set_config
        [{ id := 7, status := OutputStatus.output_status_connected }] { id := 1 }
        { mode := some { clock := 100 }, outputIds := [7] }
        ⟨fun _ _ => false, fun _ => true⟩ true).2.1.enabled =
      ({ id := 1 } : Crtc).enabled :=
  set_config_mode_reject_restores
    [{ id := 7, status := OutputStatus.output_status_connected }] { id := 1 }
    { mode := some { clock := 100 }, outputIds := [7] }
    ⟨fun _ _ => false, fun _ => true⟩ true { clock := 100 } rfl (by decide)

/-- The probed list stays empty across the enumerate/merge/filter/prune
phase: the merge drains it, and when the driver returned no modes it was
never filled. -/
theorem probeUpToPrune_probed_empty (o : Output) (maxX maxY : Nat) (fx : ProbeFuncs)
    (h : o.probed_modes = []) :
    (probeUpToPrune o maxX maxY fx).probed_modes = [] := by
  simp only [probeUpToPrune]
  split_ifs <;> simp_all [drm_mode_output_list_update, List.length_eq_zero]

/-- C3: when a probe of a connected output (whose probed list starts
empty, as it does in every reachable state) ends the pruning phase with
no usable mode, the prober leaves exactly one mode in the usable list:
the synthesized built-in 640x480 mode, with refresh rate 60, flagged
preferred, timing-equal to the std_mode table entry. -/
theorem probe_empty_prune_std_fallback (o : Output) (maxX maxY : Nat)
    (fx : ProbeFuncs)
    (hprobed : o.probed_modes = [])
    (hconn : (probeDetectPhase o fx).status ≠ OutputStatus.output_status_disconnected)
    (hempty : (probeUpToPrune (probeDetectPhase o fx) maxX maxY fx).modes = []) :
    ∃ m, (drm_crtc_probe_single_output_modes o maxX maxY fx).modes = [m] ∧
      m.hdisplay = 640 ∧ m.vdisplay = 480 ∧ m.vrefresh = 60 ∧
      m.type &&& DRM_MODE_TYPE_PREFERRED ≠ 0 ∧
      drm_mode_equal m std_mode0 = true := by
  have hp0 : (probeDetectPhase o fx).probed_modes = [] := by
    simp [probeDetectPhase, hprobed]
  have hp2 := probeUpToPrune_probed_empty (probeDetectPhase o fx) maxX maxY fx hp0
  refine ⟨{ drm_mode_duplicate std_mode0 with
            vrefresh := drm_mode_vrefresh (drm_mode_duplicate std_mode0) },
          ?_, by decide, by decide, by decide, by decide, by decide⟩
  unfold drm_crtc_probe_single_output_modes
  rw [if_neg hconn]
  simp [hempty, hp2, probeFallback, drm_mode_sort, modeInsert]

theorem probe_empty_prune_std_fallback_witness :
    ∃ m, (drm_crtc_probe_single_output_modes { id := 1 } 2048 2048
        ⟨fun _ => OutputStatus.output_status_connected, fun _ => [],
          fun _ _ => ModeStatus.MODE_OK⟩).modes = [m] ∧
      m.hdisplay = 640 ∧ m.vdisplay = 480 ∧ m.vrefresh = 60 ∧
      m.type &&& DRM_MODE_TYPE_PREFERRED ≠ 0 ∧
      drm_mode_equal m std_mode0 = true :=
  probe_empty_prune_std_fallback { id := 1 } 2048 2048
    ⟨fun _ => OutputStatus.output_status_connected, fun _ => [],
      fun _ _ => ModeStatus.MODE_OK⟩ rfl (by decide) (by decide)

/-- List.find? returns the entry at the first index satisfying the
predicate. -/
theorem find_first_true {α : Type} (p : α → Bool) :
    ∀ (l : List α) (i : Nat) (hi : i < l.length),
      p (l.get ⟨i, hi⟩) = true →
      (∀ j : Nat, ∀ hj : j < i, p (l.get ⟨j, Nat.lt_trans hj hi⟩) = false) →
      l.find? p = some (l.get ⟨i, hi⟩) := by
  intro l
  induction l with
  | nil =>
    intro i hi
    exact absurd hi (Nat.not_lt_zero i)
  | cons x xs ih =>
    intro i hi hp hearlier
    cases i with
    | zero =>
      simp only [List.get] at hp ⊢
      simp [List.find?_cons, hp]
    | succ j =>
      have hx : p x = false := hearlier 0 (Nat.succ_pos j)
      have hi' : j < xs.length := Nat.lt_of_succ_lt_succ hi
      have hstep := ih j hi' (by simpa using hp)
        (fun j2 hj2 => by simpa using hearlier (j2 + 1) (Nat.succ_lt_succ hj2))
      simp [List.find?_cons, hx, hstep]

/-- One unrolled step of the assignment loop, as produced by
pickLoop_forall2's induction. -/
theorem pickLoop_forall2 (rest : List Output) :
    ∀ (processed : List Output) (crtcs : List Crtc),
      ∃ tail crtcs2, pickLoop processed rest crtcs = (processed ++ tail, crtcs2) ∧
        List.Forall₂
          (fun o o' => (o.status ≠ OutputStatus.output_status_connected ∨ o.modes = []) →
            o' = { o with crtc := none }) rest tail := by
  induction rest with
  | nil =>
    intro processed crtcs
    exact ⟨[], crtcs, by simp [pickLoop], List.Forall₂.nil⟩
  | cons o rest ih =>
    intro processed crtcs
    obtain ⟨tail, crtcs2, heq, hf⟩ :=
      ih (processed ++
          [(pickProcessOutput (processed ++ { o with crtc := none } :: rest) crtcs
              { o with crtc := none }).1])
        (pickProcessOutput (processed ++ { o with crtc := none } :: rest) crtcs
          { o with crtc := none }).2
    refine ⟨(pickProcessOutput (processed ++ { o with crtc := none } :: rest) crtcs
        { o with crtc := none }).1 :: tail, crtcs2, ?_, List.Forall₂.cons ?_ hf⟩
    · simp only [pickLoop]
      rw [heq]
      simp
    · intro hcase
      unfold pickProcessOutput
      by_cases hs : ({ o with crtc := none } : Output).status ≠
          OutputStatus.output_status_connected
      · rw [if_pos hs]
      · have hm : o.modes = [] := hcase.resolve_left hs
        rw [if_neg hs, if_pos (show ({ o with crtc := none } : Output).modes.isEmpty = true
          by simp [hm])]

/-- C4: drm_pick_crtcs processes outputs in device-list order, resetting
each output's binding at the start of its turn, so every output that is
not connected or has an empty usable list comes out exactly as itself
with a null binding; and the desired mode chosen before the CRTC scan
(chooseDesMode, the literal translation of the two selection loops) is
the first usable mode flagged preferred, or the first usable mode when
none is so flagged. -/
theorem pick_crtcs_reset_skip_desired (outputs : List Output) (crtcs : List Crtc) :
    List.Forall₂
      (fun o o' => (o.status ≠ OutputStatus.output_status_connected ∨ o.modes = []) →
        o' = { o with crtc := none }) outputs (drm_pick_crtcs outputs crtcs).1 ∧
    ∀ modes : List DisplayMode,
      ((∀ m ∈ modes, m.type &&& DRM_MODE_TYPE_PREFERRED = 0) →
        chooseDesMode modes = modes.headD defaultMode) ∧
      (∀ i : Nat, ∀ hi : i < modes.length,
        (modes.get ⟨i, hi⟩).type &&& DRM_MODE_TYPE_PREFERRED ≠ 0 →
        (∀ j : Nat, ∀ hj : j < i,
          (modes.get ⟨j, Nat.lt_trans hj hi⟩).type &&& DRM_MODE_TYPE_PREFERRED = 0) →
        chooseDesMode modes = modes.get ⟨i, hi⟩) := by
  constructor
  · obtain ⟨tail, crtcs2, heq, hf⟩ := pickLoop_forall2 outputs [] crtcs
    unfold drm_pick_crtcs
    rw [heq]
    simpa using hf
  · intro modes
    constructor
    · intro hall
      unfold chooseDesMode
      rw [List.find?_eq_none.mpr]
      intro m hm
      simp [hall m hm]
    · intro i hi hp hearlier
      unfold chooseDesMode
      rw [find_first_true (fun m => m.type &&& DRM_MODE_TYPE_PREFERRED != 0) modes i hi
        (by simpa using hp) (fun j hj => by simpa using hearlier j hj)]

theorem pick_crtcs_reset_skip_desired_witness :
    chooseDesMode [{ type := DRM_MODE_TYPE_PREFERRED }] =
      ({ type := DRM_MODE_TYPE_PREFERRED } : DisplayMode) := by
  have h := (pick_crtcs_reset_skip_desired [] []).2
    [{ type := DRM_MODE_TYPE_PREFERRED }]
  exact h.2 0 (by decide) (by decide) (fun j hj => absurd hj (Nat.not_lt_zero j))

end DrmCrtc
